import Mathlib

/-!
Verification of the editor session logic of `simple_text_editor.py`.

The program is a Tkinter text editor.  Its reproducible logic is a single
session consisting of the text widget contents (the buffer), an optional
associated file path (the global `current_file`), the window title, and the
widget's modified flag, together with four operations: `open_file`,
`save_file`, `save_file_as` and `on_close`.

Shallow embedding conventions:
- The file system is a map from paths to the decoded text contents of the
  file stored there (`none` when no readable file exists at that path).
- `buffer` models the widget text retrieved as `get("1.0", "end-1c")`,
  i.e. the logical contents without the implicit trailing newline that the
  Tk text widget appends; both save operations write exactly this string.
- Tk dialogs (`askopenfilename`, `asksaveasfilename`) return the empty
  string on cancellation; the dialog outcome is therefore a `String`
  parameter where `""` means the user cancelled, matching the Python
  truthiness tests `if not path`.
- Whether the I/O performed by an operation succeeds is an explicit
  boolean parameter (`readOk` / `writeOk`); a missing file (`fs p = none`)
  also counts as a read failure.
- `showerror` popups are modelled by a boolean in the result telling
  whether an error dialog was shown; `askyesno` is a boolean parameter.
- Python return values are modelled as `Option Bool`: `save_file_as`
  returns `True`/`False` (`some true` / `some false`), while functions
  that fall off the end return `None` (`none`).
-/

namespace SimpleTextEditor

/-- A file system: maps a path to the decoded text contents of the file
found there, or `none` when nothing readable is at that path. -/
abbrev FS := String → Option String

/-- The editor session state: the text buffer (widget contents without the
implicit trailing newline), the global `current_file`, the window title,
the widget's modified flag, whether the window has been destroyed, and the
file system it acts on. -/
structure Editor where
  buffer : String
  current_file : Option String
  title : String
  modified : Bool
  closed : Bool
  fs : FS

/-- Python truthiness of the `current_file` global: `None` and the empty
string are falsy, any other string is truthy. -/
def truthy : Option String → Bool
  | none => false
  | some s => if s = "" then false else true

/-- `os.path.basename`: the final path component, everything after the
last separator. -/
def basename (p : String) : String :=
  (p.splitOn ("/")).getLastD ("")

/-- `set_title(path)`: the title shown in the window bar.  With a truthy
path it shows the base name of the path, otherwise the fixed
"Untitled" placeholder. -/
def set_title (path : Option String) : String :=
  if truthy path then "Simple Text Editor - " ++ basename (path.getD (""))
  else "Simple Text Editor - Untitled"

/-- Writing `content` to `path`: the file system afterwards. -/
def writeFS (fs : FS) (path content : String) : FS :=
  fun q => if q = path then some content else fs q

/-- `open_file()`: the dialog yields `dialogPath` (`""` on cancellation);
on a non-cancelled dialog the file is read (the read succeeds when a file
exists and `readOk` is true).  On success the buffer is replaced by the
file contents, `current_file` and the title are updated and the modified
flag is reset; on failure an error popup is shown and nothing changes.
Returns `(new state, whether an error popup was shown)`. -/
def open_file (e : Editor) (dialogPath : String) (readOk : Bool) :
    Editor × Bool :=
  if dialogPath = "" then (e, false)
  else
    match e.fs dialogPath, readOk with
    | some content, true =>
        ({ e with
            buffer := content
            current_file := some dialogPath
            title := set_title (some dialogPath)
            modified := false }, false)
    | some _, false => (e, true)
    | none, _ => (e, true)

/-- `save_file_as()`: the dialog yields `dialogPath` (`""` on
cancellation, which returns `False` at once).  Otherwise the buffer is
written to the chosen path; on success `current_file`, the title and the
modified flag are updated and `True` is returned; on a write failure an
error popup is shown and `False` is returned with the session unchanged.
Returns `(new state, whether an error popup was shown, Python result)`. -/
def save_file_as (e : Editor) (dialogPath : String) (writeOk : Bool) :
    Editor × Bool × Option Bool :=
  if dialogPath = "" then (e, false, some false)
  else if writeOk then
    ({ e with
        fs := writeFS e.fs dialogPath e.buffer
        current_file := some dialogPath
        title := set_title (some dialogPath)
        modified := false }, false, some true)
  else (e, true, some false)

/-- `save_file()`: with a truthy `current_file` the buffer is written to
it and the modified flag reset on success, or an error popup shown on
failure; otherwise it calls `save_file_as()` and discards its result.
The Python function has no `return` statement, so its result is always
`None`.  Returns `(new state, error popup shown, Python result)`. -/
def save_file (e : Editor) (dialogPath : String) (writeOk : Bool) :
    Editor × Bool × Option Bool :=
  if truthy e.current_file then
    if writeOk then
      ({ e with
          fs := writeFS e.fs (e.current_file.getD ("")) e.buffer
          modified := false }, false, none)
    else (e, true, none)
  else
    let r := save_file_as e dialogPath writeOk
    (r.1, r.2.1, none)

/-- `on_close()`: with the modified flag set, a Yes/No confirmation is
asked (`confirmQuit` is the answer) and the window is destroyed only on
Yes; without it the window is destroyed immediately.
Returns `(new state, whether the confirmation prompt was shown)`. -/
def on_close (e : Editor) (confirmQuit : Bool) : Editor × Bool :=
  if e.modified then
    if confirmQuit then ({ e with closed := true }, true)
    else (e, true)
  else ({ e with closed := true }, false)

/-- The state after the GUI setup at the bottom of the script: empty
buffer, `current_file = None`, title set by `set_title(None)`, modified
flag reset, window open. -/
def initEditor (fs : FS) : Editor :=
  { buffer := ""
    current_file := none
    title := set_title none
    modified := false
    closed := false
    fs := fs }

/-- States reachable from startup by any sequence of `open_file`,
`save_file` and `save_file_as` invocations, with arbitrary dialog
outcomes and I/O results. -/
inductive Reachable : Editor → Prop
  | init (fs : FS) : Reachable (initEditor fs)
  | openStep (e : Editor) (p : String) (r : Bool) :
      Reachable e → Reachable (open_file e p r).1
  | saveStep (e : Editor) (p : String) (w : Bool) :
      Reachable e → Reachable (save_file e p w).1
  | saveAsStep (e : Editor) (p : String) (w : Bool) :
      Reachable e → Reachable (save_file_as e p w).1

/-- The title invariant of the spec: no associated path means the fixed
"Untitled" placeholder, an associated path means the title is derived
from its base name. -/
def TitleInv (e : Editor) : Prop :=
  (e.current_file = none → e.title = "Simple Text Editor - Untitled") ∧
  (∀ p, e.current_file = some p →
    e.title = "Simple Text Editor - " ++ basename p)

/-- An empty file system, for concrete instantiations. -/
def fs0 : FS := fun _ => none

/-- A fresh session over the empty file system. -/
def e0 : Editor := initEditor fs0

/-- A file system holding one file, for concrete instantiations. -/
def fs1 : FS := fun q => if q = "/tmp/a.txt" then some ("hello") else none

/-- A session with an associated path and unsaved changes, over `fs1`. -/
def e1 : Editor :=
  { buffer := "draft"
    current_file := some ("/tmp/a.txt")
    title := set_title (some ("/tmp/a.txt"))
    modified := true
    closed := false
    fs := fs1 }

/-- TitleInv only looks at the `current_file` and `title` fields. -/
theorem titleInv_congr (a b : Editor)
    (hc : b.current_file = a.current_file) (ht : b.title = a.title)
    (h : TitleInv a) : TitleInv b := by
  constructor
  · intro hn
    rw [ht]
    exact h.1 (hc ▸ hn)
  · intro p hp
    rw [ht]
    exact h.2 p (hc ▸ hp)

/-- Any state whose `current_file` is a truthy path `p` and whose title
was produced by `set_title (some p)` satisfies the title invariant. -/
theorem titleInv_of_set (e : Editor) (p : String) (hp : p ≠ "")
    (hc : e.current_file = some p) (ht : e.title = set_title (some p)) :
    TitleInv e := by
  constructor
  · intro hn
    rw [hc] at hn
    exact absurd hn (by simp)
  · intro q hq
    rw [hc] at hq
    cases hq
    rw [ht]
    simp [set_title, truthy, hp]

/-- Claim C1: with a set (truthy) path, Save writes the buffer contents
verbatim to that path and on success resets the modified flag. -/
theorem save_with_path_writes_verbatim (e : Editor) (d p : String)
    (hp : e.current_file = some p) (hne : p ≠ "") :
    (save_file e d true).1.fs p = some e.buffer ∧
    (save_file e d true).1.modified = false := by
  simp [save_file, truthy, hp, hne, writeFS]

/-- Witness for C1 at a concrete session with an associated path. -/
theorem save_with_path_writes_verbatim_witness :
    (save_file e1 "" true).1.fs ("/tmp/a.txt") = some e1.buffer ∧
    (save_file e1 "" true).1.modified = false :=
  save_with_path_writes_verbatim e1 "" ("/tmp/a.txt") rfl (by decide)

/-- Claim C2 counterexample: with no associated path and a cancelled
dialog, Save and Save As reach the same state but do not return the same
result: `save_file` (no `return` statement in Python) yields `None`,
while `save_file_as` returns `False`, so Save does not behave
identically to Save As in its result. -/
theorem save_unset_path_counterexample :
    e0.current_file = none ∧
    (save_file e0 "" true).2.2 = none ∧
    (save_file_as e0 "" true).2.2 = some false :=
  ⟨rfl, rfl, rfl⟩

/-- Claim C2 (amended): with no associated path, Save delegates to Save
As, producing the same resulting session state, the same file-system
effect and the same error popups for the same dialog outcome; but Save
discards the boolean result of Save As and itself returns `None`. -/
theorem save_unset_path_delegates (e : Editor) (d : String) (w : Bool)
    (h : e.current_file = none) :
    (save_file e d w).1 = (save_file_as e d w).1 ∧
    (save_file e d w).2.1 = (save_file_as e d w).2.1 ∧
    (save_file e d w).2.2 = none := by
  simp [save_file, truthy, h]

/-- Witness for the amended C2 at a concrete path-less session. -/
theorem save_unset_path_delegates_witness :
    (save_file e0 ("x") true).1 = (save_file_as e0 ("x") true).1 ∧
    (save_file e0 ("x") true).2.1 = (save_file_as e0 ("x") true).2.1 ∧
    (save_file e0 ("x") true).2.2 = none :=
  save_unset_path_delegates e0 ("x") true rfl

/-- Claim C3: a successful Open sets the buffer to exactly the decoded
file contents, sets the session path to the selected path, resets the
modified flag, and shows no error. -/
theorem open_success_sets_state (e : Editor) (p c : String)
    (hne : p ≠ "") (hc : e.fs p = some c) :
    (open_file e p true).1.buffer = c ∧
    (open_file e p true).1.current_file = some p ∧
    (open_file e p true).1.modified = false ∧
    (open_file e p true).2 = false := by
  simp [open_file, hne, hc]

/-- Witness for C3 at a concrete readable file. -/
theorem open_success_sets_state_witness :
    (open_file e1 ("/tmp/a.txt") true).1.buffer = "hello" ∧
    (open_file e1 ("/tmp/a.txt") true).1.current_file =
      some ("/tmp/a.txt") ∧
    (open_file e1 ("/tmp/a.txt") true).1.modified = false ∧
    (open_file e1 ("/tmp/a.txt") true).2 = false :=
  open_success_sets_state e1 ("/tmp/a.txt") ("hello") (by decide) rfl

/-- Claim C4: a successful Save As writes the buffer to the chosen path,
updates the session path to it, resets the modified flag and returns
`True`. -/
theorem save_as_success (e : Editor) (p : String) (hne : p ≠ "") :
    (save_file_as e p true).1.fs p = some e.buffer ∧
    (save_file_as e p true).1.current_file = some p ∧
    (save_file_as e p true).1.modified = false ∧
    (save_file_as e p true).2.2 = some true := by
  simp [save_file_as, hne, writeFS]

/-- Witness for C4 at a concrete chosen path. -/
theorem save_as_success_witness :
    (save_file_as e0 ("/tmp/b.txt") true).1.fs ("/tmp/b.txt") =
      some e0.buffer ∧
    (save_file_as e0 ("/tmp/b.txt") true).1.current_file =
      some ("/tmp/b.txt") ∧
    (save_file_as e0 ("/tmp/b.txt") true).1.modified = false ∧
    (save_file_as e0 ("/tmp/b.txt") true).2.2 = some true :=
  save_as_success e0 ("/tmp/b.txt") (by decide)

/-- Claim C5: Save As returns failure (`False`) and leaves the whole
session state unchanged both on a cancelled dialog and on a write
failure; only the write-failure case surfaces an error popup. -/
theorem save_as_cancel_or_failure (e : Editor) (p : String) (w : Bool) :
    save_file_as e "" w = (e, false, some false) ∧
    (p ≠ "" → save_file_as e p false = (e, true, some false)) := by
  constructor
  · simp [save_file_as]
  · intro h
    simp [save_file_as, h]

/-- Witness for C5: cancellation and write failure at concrete inputs. -/
theorem save_as_cancel_or_failure_witness :
    save_file_as e0 "" true = (e0, false, some false) ∧
    save_file_as e0 ("x") false = (e0, true, some false) := by
  have h := save_as_cancel_or_failure e0 ("x") true
  exact ⟨h.1, h.2 (by decide)⟩

/-- Claim C6: a failed read during Open (an I/O or decode failure, or no
readable file at the path) surfaces an error popup and leaves the whole
session state unchanged. -/
theorem open_failure_state_unchanged (e : Editor) (p : String)
    (hne : p ≠ "") :
    open_file e p false = (e, true) ∧
    (e.fs p = none → ∀ r, open_file e p r = (e, true)) := by
  constructor
  · unfold open_file
    rw [if_neg hne]
    cases h : e.fs p <;> simp
  · intro hn r
    unfold open_file
    rw [if_neg hne, hn]

/-- Witness for C6: a failed read on a concrete missing file. -/
theorem open_failure_state_unchanged_witness :
    open_file e0 ("x") false = (e0, true) ∧
    open_file e0 ("x") true = (e0, true) := by
  have h := open_failure_state_unchanged e0 ("x") (by decide)
  exact ⟨h.1, h.2 rfl true⟩

/-- Claim C7: Save on a session with a set (truthy) path surfaces an
error popup on a write failure and leaves the whole session state,
including the modified flag, unchanged. -/
theorem save_with_path_failure (e : Editor) (d : String)
    (h : truthy e.current_file = true) :
    save_file e d false = (e, true, none) := by
  simp [save_file, h]

/-- Witness for C7 at a concrete session with an associated path. -/
theorem save_with_path_failure_witness :
    save_file e1 "" false = (e1, true, none) :=
  save_with_path_failure e1 "" (by decide)

/-- Claim C8: closing with the modified flag clear never prompts and
destroys the window; closing with it set always prompts, destroys the
window only on an affirmative answer, and otherwise leaves the session
state unchanged. -/
theorem close_guard (e : Editor) (c : Bool) :
    (e.modified = false → on_close e c = ({ e with closed := true }, false)) ∧
    (e.modified = true →
      on_close e true = ({ e with closed := true }, true) ∧
      on_close e false = (e, true)) := by
  constructor <;> intro h <;> simp [on_close, h]

/-- Witness for C8 at concrete unmodified and modified sessions. -/
theorem close_guard_witness :
    on_close e0 false = ({ e0 with closed := true }, false) ∧
    on_close e1 true = ({ e1 with closed := true }, true) ∧
    on_close e1 false = (e1, true) := by
  have h0 := close_guard e0 false
  have h1 := close_guard e1 true
  exact ⟨h0.1 rfl, (h1.2 rfl).1, (h1.2 rfl).2⟩

/-- One Open invocation preserves the title invariant. -/
theorem titleInv_open (e : Editor) (p : String) (r : Bool)
    (ih : TitleInv e) : TitleInv (open_file e p r).1 := by
  unfold open_file
  by_cases hp : p = ""
  · rw [if_pos hp]
    exact ih
  · rw [if_neg hp]
    cases hfs : e.fs p with
    | none => cases r <;> exact ih
    | some c =>
        cases r with
        | false => exact ih
        | true => exact titleInv_of_set _ p hp rfl rfl

/-- One Save As invocation preserves the title invariant. -/
theorem titleInv_save_as (e : Editor) (p : String) (w : Bool)
    (ih : TitleInv e) : TitleInv (save_file_as e p w).1 := by
  unfold save_file_as
  split
  · exact ih
  · rename_i hp
    split
    · exact titleInv_of_set _ p hp rfl rfl
    · exact ih

/-- One Save invocation preserves the title invariant. -/
theorem titleInv_save (e : Editor) (p : String) (w : Bool)
    (ih : TitleInv e) : TitleInv (save_file e p w).1 := by
  unfold save_file
  split
  · split
    · exact titleInv_congr e _ rfl rfl ih
    · exact ih
  · exact titleInv_save_as e p w ih

/-- Claim C9: every state reachable by any sequence of Open, Save and
Save As satisfies the title invariant: no associated path means the
fixed "Untitled" placeholder, an associated path means the title is
derived from the path's final component. -/
theorem reachable_title_invariant (e : Editor) (h : Reachable e) :
    TitleInv e := by
  induction h with
  | init fs =>
      constructor
      · intro _
        rfl
      · intro p hp
        exact Option.noConfusion hp
  | openStep e p r _ ih => exact titleInv_open e p r ih
  | saveStep e p w _ ih => exact titleInv_save e p w ih
  | saveAsStep e p w _ ih => exact titleInv_save_as e p w ih

/-- Witness for C9: the invariant at the concrete startup state. -/
theorem reachable_title_invariant_witness : TitleInv e0 :=
  reachable_title_invariant e0 (Reachable.init fs0)

/-- Claim C10: for every session state and dialog outcome, Save and Save
As leave the text buffer (and the window) unchanged, and change the file
system at most at the written target path. -/
theorem save_ops_frame (e : Editor) (d : String) (w : Bool) :
    (save_file_as e d w).1.buffer = e.buffer ∧
    (save_file e d w).1.buffer = e.buffer ∧
    (save_file_as e d w).1.closed = e.closed ∧
    (save_file e d w).1.closed = e.closed ∧
    (∀ q, q ≠ d → (save_file_as e d w).1.fs q = e.fs q) ∧
    (∀ q, q ≠ d → e.current_file ≠ some q →
      (save_file e d w).1.fs q = e.fs q) := by
  refine ⟨?_, ?_, ?_, ?_, ?_, ?_⟩
  · unfold save_file_as
    split <;> [rfl; split <;> rfl]
  · unfold save_file save_file_as
    split <;> [skip; split <;> [rfl; split <;> rfl]]
    split <;> rfl
  · unfold save_file_as
    split <;> [rfl; split <;> rfl]
  · unfold save_file save_file_as
    split <;> [skip; split <;> [rfl; split <;> rfl]]
    split <;> rfl
  · intro q hq
    unfold save_file_as
    split <;> [rfl; split <;> [simp [writeFS, hq]; rfl]]
  · intro q hq hcf
    unfold save_file save_file_as
    split
    · rename_i ht
      split
      · cases hc : e.current_file with
        | none => rw [hc] at ht; exact absurd ht (by simp [truthy])
        | some s =>
            rw [hc] at hcf
            have hqs : q ≠ s := fun h => hcf (h ▸ rfl)
            simp [hc, writeFS, hqs]
      · rfl
    · split <;> [rfl; split <;> [simp [writeFS, hq]; rfl]]

/-- Witness for C10 at a concrete session, chosen path and other path. -/
theorem save_ops_frame_witness :
    (save_file_as e1 ("x") true).1.buffer = e1.buffer ∧
    (save_file e1 ("x") true).1.buffer = e1.buffer ∧
    (save_file_as e1 ("x") true).1.fs ("y") = e1.fs ("y") ∧
    (save_file e1 ("x") true).1.fs ("y") = e1.fs ("y") := by
  have h := save_ops_frame e1 ("x") true
  exact ⟨h.1, h.2.1, h.2.2.2.2.1 ("y") (by decide),
    h.2.2.2.2.2 ("y") (by decide) (by decide)⟩

end SimpleTextEditor
